import Mathlib

/-
Shallow embedding of the rs-coroutine / rs-flow runtime.

Part 1 models the cancellation core (src/rs_coroutine_core/src/job.rs and
scope.rs).  Every `Arc<AtomicBool>` cell that a `CancelToken` can point at
lives in an explicit `World`: a list of booleans indexed by allocation
order.  Cloning a token shares its index (cloning an `Arc` shares the
cell); allocating a token appends a fresh `false` cell.
-/

namespace RsCoroutine

/-- The heap of `Arc<AtomicBool>` cancellation cells, in allocation order. -/
structure World where
  cells : List Bool
deriving DecidableEq, Repr

namespace World

/-- Allocate a fresh cell holding `false`; returns the new world and the
cell's index (`Arc::new(AtomicBool::new(false))`). -/
def alloc (w : World) : World × Nat :=
  (⟨w.cells ++ [false]⟩, w.cells.length)

/-- Read a cell (`AtomicBool::load`).  Unallocated indices read `false`. -/
def get (w : World) (i : Nat) : Bool :=
  w.cells.getD i false

/-- Write `true` into a cell (`AtomicBool::store(true, SeqCst)`). -/
def setTrue (w : World) (i : Nat) : World :=
  ⟨w.cells.set i true⟩

end World

/-- `CancelToken` (job.rs): a clone-shared handle to one cancellation
cell.  The `Notify` half has no effect on the cancelled flag and is
modelled separately (see `NotifyState`). -/
structure CancelToken where
  cell : Nat
deriving DecidableEq, Repr

namespace CancelToken

/-- `CancelToken::new`: fresh flag initialised to `false`. -/
def new (w : World) : World × CancelToken :=
  let (w', i) := w.alloc
  (w', ⟨i⟩)

/-- `CancelToken::cancel`: `self.cancelled.store(true, SeqCst)` followed by
`notify_waiters` (which does not touch the flag). -/
def cancel (w : World) (t : CancelToken) : World :=
  w.setTrue t.cell

/-- `CancelToken::is_cancelled`: `self.cancelled.load(SeqCst)`. -/
def is_cancelled (w : World) (t : CancelToken) : Bool :=
  w.get t.cell

/-- `CancelToken::child`: the source returns `Self::new()` — a brand-new
token whose cell is unrelated to the parent's. -/
def child (w : World) (_parent : CancelToken) : World × CancelToken :=
  new w

end CancelToken

/-- `JobHandle` (job.rs): a cancel token plus a completion `Notify`.  The
completion `Notify` carries no persistent state that the flag model needs;
its wake-up behaviour is modelled by `NotifyState` below. -/
structure JobHandle where
  cancel_token : CancelToken
deriving DecidableEq, Repr

namespace JobHandle

/-- `JobHandle::new`. -/
def new (w : World) : World × JobHandle :=
  let (w', t) := CancelToken.new w
  (w', ⟨t⟩)

/-- `JobHandle::new_child`: `cancel_token: self.cancel_token.child()`. -/
def new_child (w : World) (j : JobHandle) : World × JobHandle :=
  let (w', t) := CancelToken.child w j.cancel_token
  (w', ⟨t⟩)

/-- `JobHandle::cancel`. -/
def cancel (w : World) (j : JobHandle) : World :=
  CancelToken.cancel w j.cancel_token

/-- `JobHandle::is_cancelled`. -/
def is_cancelled (w : World) (j : JobHandle) : Bool :=
  CancelToken.is_cancelled w j.cancel_token

end JobHandle

/-- `CoroutineScope` (scope.rs): a dispatcher, a job and a scope-level
cancel token.  Dispatchers only label where work runs; they are opaque
names here. -/
structure CoroutineScope where
  dispatcher : Nat
  job : JobHandle
  cancel_token : CancelToken
deriving DecidableEq, Repr

/-- `Deferred` (scope.rs): the one-shot receiver is modelled in the
oneshot section; the job handle is what the cancellation claims read. -/
structure Deferred where
  job : JobHandle
deriving DecidableEq, Repr

namespace CoroutineScope

/-- `CoroutineScope::new`. -/
def new (d : Nat) (w : World) : World × CoroutineScope :=
  let (w1, j) := JobHandle.new w
  let (w2, t) := CancelToken.new w1
  (w2, ⟨d, j, t⟩)

/-- `CoroutineScope::cancel`: `self.cancel_token.cancel(); self.job.cancel()`. -/
def cancel (w : World) (s : CoroutineScope) : World :=
  JobHandle.cancel (CancelToken.cancel w s.cancel_token) s.job

/-- `CoroutineScope::is_cancelled`. -/
def is_cancelled (w : World) (s : CoroutineScope) : Bool :=
  CancelToken.is_cancelled w s.cancel_token

/-- `CoroutineScope::async_task`: builds a child scope with
`job: self.job.new_child()` and `cancel_token: self.cancel_token.child()`,
spawns the future on the other dispatcher, and returns a `Deferred`
holding the child scope's job. -/
def async_task (w : World) (s : CoroutineScope) (_dispatcher : Nat) :
    World × Deferred :=
  let (w1, childJob) := JobHandle.new_child w s.job
  let (w2, _childTok) := CancelToken.child w1 s.cancel_token
  (w2, ⟨childJob⟩)

end CoroutineScope

/-- The body of the task spawned by `CoroutineScope::launch`, run in the
world current when the dispatcher finally executes it:
`if !cancel_token.is_cancelled() { fut.await } job_clone.complete()`.
`tok` is the scope-level token the launch closure cloned, `body` is the
side effect of the launched future.  Returns the world after the task,
whether the body ran, and whether completion was signalled. -/
def launchTaskRun (w : World) (tok : CancelToken) (body : World → World) :
    World × Bool × Bool :=
  if CancelToken.is_cancelled w tok then
    (w, false, true)
  else
    (body w, true, true)

/-
`tokio::sync::Notify` as used by `JobHandle::join`/`complete` (job.rs).
`notify_waiters` wakes every task currently suspended in `notified()` and
stores no permit for future waiters; a task that calls `notified()` later
stays suspended until another notification arrives.
-/

/-- State of one `Notify`: task ids currently suspended in `notified()`,
and task ids that have been woken. -/
structure NotifyState where
  waiting : List Nat
  woken : List Nat
deriving DecidableEq, Repr

namespace NotifyState

/-- The freshly created `Notify` inside `JobHandle::new`. -/
def empty : NotifyState := ⟨[], []⟩

/-- A task enters `completed.notified().await` (the body of
`JobHandle::join`). -/
def register (s : NotifyState) (tid : Nat) : NotifyState :=
  ⟨s.waiting ++ [tid], s.woken⟩

/-- `completed.notify_waiters()` (the body of `JobHandle::complete`):
wakes exactly the currently registered waiters, keeps no permit. -/
def notifyAll (s : NotifyState) : NotifyState :=
  ⟨[], s.woken ++ s.waiting⟩

end NotifyState

/-- Events on one `JobHandle`'s completion `Notify`: a task starting to
await `join()`, or a call to `complete()`. -/
inductive JobEvent where
  | joinStart (tid : Nat)
  | complete
deriving DecidableEq, Repr

/-- One event against the completion `Notify`. -/
def jobStep (s : NotifyState) : JobEvent → NotifyState
  | .joinStart tid => s.register tid
  | .complete => s.notifyAll

/-- Run a whole event sequence against a fresh `JobHandle`'s `Notify`. -/
def jobRun (events : List JobEvent) : NotifyState :=
  events.foldl jobStep NotifyState.empty

/-
`tokio::sync::oneshot` as awaited by `Deferred::await_result` (scope.rs)
and `Deferred::await_value` (lib.rs).  A receiver resolves either to the
sent value or, when the sender was dropped without sending, to a recv
error; `.expect("task dropped")` turns the latter into a panic whose
message is the string literal in the source.
-/

/-- Outcome of awaiting a `Deferred`: either the task's value, or a panic
raised by `.expect(...)`. -/
inductive AwaitOutcome (T : Type) where
  | value : T → AwaitOutcome T
  | panic : String → AwaitOutcome T
deriving DecidableEq, Repr

/-- `Deferred::await_result` / `await_value`:
`self.rx.await.expect("task dropped")`.  `sent = some v` models the
producing task having sent `v`; `sent = none` models the one-shot sender
having been dropped (dispatcher torn down) before sending. -/
def awaitResult {T : Type} (sent : Option T) : AwaitOutcome T :=
  match sent with
  | some v => .value v
  | none => .panic "task dropped"

end RsCoroutine

/-
Shallow embedding of the rs_flow stream core (src/rs_flow/src).

A cold `Flow<T>` run is driven by `upstream.collect(callback)`: the
producer emits its values in order and the callback runs once per value,
sequentially (each `collector.emit` is awaited before the producer
continues).  A single collect run of a per-value operator is therefore a
fold over the upstream's emission list, threading the operator's shared
state (`Arc<AtomicUsize>`, `Mutex<Option<T>>`, ...).

`runCollect` makes early termination expressible: a step may request a
stop, and the runner reports how many upstream values the producer
actually delivered into the callback before the run ended.  An operator
whose Rust code has no stop mechanism uses a step that never requests one.
-/

namespace RsFlow

/-- One collect run of a stateful per-value operator.  `step` consumes the
operator state and one upstream value, and yields the new state, the
values pushed downstream for it, and whether collection stops here.
Returns the final state, all downstream emissions in order, and the
number of upstream values consumed. -/
def runCollect {S T U : Type} (step : S → T → S × List U × Bool) (s : S) :
    List T → S × List U × Nat
  | [] => (s, [], 0)
  | x :: xs =>
      let r := step s x
      if r.2.2 then
        (r.1, r.2.1, 1)
      else
        let rest := runCollect step r.1 xs
        (rest.1, r.2.1 ++ rest.2.1, rest.2.2 + 1)

/-- `FlowExt::take` (operators.rs): shared `AtomicUsize` counter;
`fetch_add(1)` then emit only when the previous count is below `count`.
The upstream is never told to stop — there is no stop path in the code. -/
def takeStep (count : Nat) (emitted : Nat) (v : Nat) : Nat × List Nat × Bool :=
  (emitted + 1, if emitted < count then [v] else [], false)

/-- A full collect run of `FlowExt::take count` over an upstream that
emits `xs`. -/
def takeRun (count : Nat) (xs : List Nat) : Nat × List Nat × Nat :=
  runCollect (takeStep count) 0 xs

/-- `Flow::take` (lib.rs): `if remaining == 0 { return; }` before ever
collecting the upstream; otherwise it collects the whole upstream, and
because `remaining` is a `Copy` `usize` captured afresh by each
invocation's `async move` block, the decrement never persists — every
callback sees `remaining = limit > 0` and emits.  Returns downstream
emissions and upstream values consumed. -/
def libTakeRun (limit : Nat) (xs : List Nat) : List Nat × Nat :=
  if limit = 0 then
    ([], 0)
  else
    let r := runCollect
      (fun (_ : Unit) v => ((), if 0 < limit then [v] else [], false)) () xs
    (r.2.1, r.2.2)

/-- `FlowExt::flat_map_latest` (operators.rs): the upstream callback sends
each `f value` inner flow into a bounded channel (`tx.send(..).await`
waits for capacity and never drops while the receiver lives); the
consumer loop receives the inner flows in FIFO order — upstream order —
and collects each one to completion before receiving the next.  Nothing
is ever aborted.  `f v` is the emission list of the inner flow for `v`. -/
def flatMapLatestRun {T U : Type} (f : T → List U) (xs : List T) : List U :=
  (xs.map f).foldl (fun out inner => out ++ inner) []

/-- `FlowExt::distinct_until_changed` (operators.rs): shared
`Mutex<Option<T>>` holding the last accepted value; emit when the slot is
empty or differs from the incoming value, then overwrite the slot. -/
def distinctStep {T : Type} [DecidableEq T] (last : Option T) (v : T) :
    Option T × List T × Bool :=
  match last with
  | none => (some v, [v], false)
  | some p => if p = v then (some p, [], false) else (some v, [v], false)

/-- A full collect run of `distinct_until_changed` over upstream `xs`. -/
def distinctRun {T : Type} [DecidableEq T] (xs : List T) : List T :=
  (runCollect distinctStep none xs).2.1

/-- Spec-side restatement of the `distinct_until_changed` claim: the
first value is always emitted; afterwards a value is emitted iff it
differs from the immediately preceding accepted value. -/
def distinctSpecGo {T : Type} [DecidableEq T] (prev : T) : List T → List T
  | [] => []
  | y :: rest => if y = prev then distinctSpecGo prev rest else y :: distinctSpecGo y rest

/-- Spec-side restatement, top level: first value always accepted. -/
def distinctSpec {T : Type} [DecidableEq T] : List T → List T
  | [] => []
  | x :: rest => x :: distinctSpecGo x rest

/-- `FlowError` (terminal/mod.rs). -/
inductive FlowError where
  | Empty
  | MoreThanOneElement
deriving DecidableEq, Repr

/-- `FlowTerminal::single` (terminal/implementation.rs): drain the whole
flow counting emissions with `fetch_add`, remembering the first value;
then 0 emissions is `Empty`, more than one is `MoreThanOneElement`, and
exactly one returns the stored value (`value.ok_or(FlowError::Empty)` —
the stored slot is necessarily `Some` here). -/
def singleRun {T : Type} (xs : List T) : Except FlowError T :=
  let st := (runCollect
      (fun (acc : Nat × Option T) v =>
        ((acc.1 + 1, if acc.1 = 0 then some v else acc.2), ([] : List Unit), false))
      (0, none) xs).1
  if st.1 = 0 then
    .error .Empty
  else if 1 < st.1 then
    .error .MoreThanOneElement
  else
    match st.2 with
    | some v => .ok v
    | none => .error .Empty

/-
`StateFlow::as_flow` (hot_flow.rs): the collect body clones the `watch`
receiver, emits `rx.borrow_and_update().clone()` — the value current in
the channel when collection starts — and then loops on `rx.changed()`,
emitting the latest value after each wake-up.  Writes that land while the
subscriber is busy are conflated: only the last value written before a
wake-up is observed.  `groups` lists, for each wake-up interval, the
values written during it (an empty group produces no wake-up).
-/

/-- The update values a `watch` subscriber observes: the last write of
each non-empty burst of writes between its wake-ups. -/
def observedUpdates {T : Type} (groups : List (List T)) : List T :=
  groups.foldr
    (fun g acc =>
      match g.getLast? with
      | some v => v :: acc
      | none => acc)
    []

/-- One collect run of `StateFlow::as_flow`: `current` is the channel's
value when collection starts; the first emission is `current`, followed
by the observed updates. -/
def stateFlowRun {T : Type} (current : T) (groups : List (List T)) : List T :=
  current :: observedUpdates groups

end RsFlow

/-
Theorems.  Helper lemmas first, then one theorem per verified claim.
-/

theorem RsCoroutine.World.setTrue_setTrue (w : RsCoroutine.World) (i : Nat) :
    (w.setTrue i).setTrue i = w.setTrue i := by
  simp [RsCoroutine.World.setTrue, List.set_set]

theorem RsCoroutine.World.length_setTrue (w : RsCoroutine.World) (i : Nat) :
    (w.setTrue i).cells.length = w.cells.length := by
  simp [RsCoroutine.World.setTrue]

theorem RsCoroutine.World.get_setTrue_self (w : RsCoroutine.World) (i : Nat)
    (h : i < w.cells.length) : (w.setTrue i).get i = true := by
  simp [RsCoroutine.World.setTrue, RsCoroutine.World.get,
    List.getD_eq_getElem?_getD, List.getElem?_set_self h]

theorem RsCoroutine.World.get_setTrue_preserve (w : RsCoroutine.World) (i j : Nat)
    (h : w.get i = true) : (w.setTrue j).get i = true := by
  rcases eq_or_ne i j with rfl | hne
  · by_cases hlt : i < w.cells.length
    · exact RsCoroutine.World.get_setTrue_self w i hlt
    · have hs : w.cells.set i true = w.cells :=
        List.set_eq_of_length_le (Nat.le_of_not_lt hlt)
      simpa [RsCoroutine.World.setTrue, RsCoroutine.World.get, hs] using h
  · simpa [RsCoroutine.World.setTrue, RsCoroutine.World.get,
      List.getD_eq_getElem?_getD, List.getElem?_set_ne (Ne.symm hne)] using h

/-- Claim C1: evaluation of `async_task` under scope cancellation at the
concrete failing input.  A fresh scope `s` starts a task `t` via
`async_task` on another dispatcher; `s.cancel()` sets `s`'s own token and
job, yet `t`'s job — whose `CancelToken` came from `CancelToken::child`,
which returns `Self::new()` — stays not cancelled, contradicting the
claimed parent/child cancellation linkage. -/
theorem async_task_child_ignores_scope_cancel :
    (RsCoroutine.CoroutineScope.is_cancelled
      (RsCoroutine.CoroutineScope.cancel
        (RsCoroutine.CoroutineScope.async_task
          (RsCoroutine.CoroutineScope.new 0 ⟨[]⟩).1
          (RsCoroutine.CoroutineScope.new 0 ⟨[]⟩).2 1).1
        (RsCoroutine.CoroutineScope.new 0 ⟨[]⟩).2)
      (RsCoroutine.CoroutineScope.new 0 ⟨[]⟩).2 = true)
    ∧ (RsCoroutine.JobHandle.is_cancelled
      (RsCoroutine.CoroutineScope.cancel
        (RsCoroutine.CoroutineScope.async_task
          (RsCoroutine.CoroutineScope.new 0 ⟨[]⟩).1
          (RsCoroutine.CoroutineScope.new 0 ⟨[]⟩).2 1).1
        (RsCoroutine.CoroutineScope.new 0 ⟨[]⟩).2)
      (RsCoroutine.CoroutineScope.async_task
        (RsCoroutine.CoroutineScope.new 0 ⟨[]⟩).1
        (RsCoroutine.CoroutineScope.new 0 ⟨[]⟩).2 1).2.job = false) := by
  decide

/-- Claim C4: if the scope's cancel token is already cancelled in the
world in which the spawned launch closure finally runs, the pre-flight
check `!cancel_token.is_cancelled()` fails, the launched body never runs
(the world is left untouched, so no flag it would set becomes true), and
only the bookkeeping completion `job_clone.complete()` is signalled. -/
theorem launch_skips_body_after_scope_cancel (w : RsCoroutine.World)
    (s : RsCoroutine.CoroutineScope) (body : RsCoroutine.World → RsCoroutine.World)
    (h : s.cancel_token.cell < w.cells.length) :
    RsCoroutine.launchTaskRun (RsCoroutine.CoroutineScope.cancel w s) s.cancel_token body
      = (RsCoroutine.CoroutineScope.cancel w s, false, true) := by
  have hcan : RsCoroutine.CancelToken.is_cancelled
      (RsCoroutine.CoroutineScope.cancel w s) s.cancel_token = true := by
    apply RsCoroutine.World.get_setTrue_preserve
    exact RsCoroutine.World.get_setTrue_self w _ h
  simp [RsCoroutine.launchTaskRun, hcan]

/-- Witness for C4 at a concrete input: a scope freshly created in the
empty world, a body that would set cell 5. -/
theorem launch_skips_body_after_scope_cancel_witness :
    ((RsCoroutine.CoroutineScope.new 0 ⟨[]⟩).2.cancel_token.cell
        < (RsCoroutine.CoroutineScope.new 0 ⟨[]⟩).1.cells.length)
    ∧ RsCoroutine.launchTaskRun
        (RsCoroutine.CoroutineScope.cancel (RsCoroutine.CoroutineScope.new 0 ⟨[]⟩).1
          (RsCoroutine.CoroutineScope.new 0 ⟨[]⟩).2)
        (RsCoroutine.CoroutineScope.new 0 ⟨[]⟩).2.cancel_token
        (fun w => RsCoroutine.World.setTrue w 5)
      = (RsCoroutine.CoroutineScope.cancel (RsCoroutine.CoroutineScope.new 0 ⟨[]⟩).1
          (RsCoroutine.CoroutineScope.new 0 ⟨[]⟩).2, false, true) :=
  ⟨by decide,
   launch_skips_body_after_scope_cancel _ _ _ (by decide)⟩

/-- Claim C8: cancelling the same `CancelToken` (or `JobHandle`) twice
leaves exactly the state one cancel leaves — the cancelled flag is true
after either, and the second call adds no further side effect; both
operations are total functions of the state, so neither call panics. -/
theorem cancel_twice_idempotent (w : RsCoroutine.World) (t : RsCoroutine.CancelToken)
    (j : RsCoroutine.JobHandle) (h : t.cell < w.cells.length) :
    RsCoroutine.CancelToken.cancel (RsCoroutine.CancelToken.cancel w t) t
        = RsCoroutine.CancelToken.cancel w t
    ∧ RsCoroutine.CancelToken.is_cancelled (RsCoroutine.CancelToken.cancel w t) t = true
    ∧ RsCoroutine.JobHandle.cancel (RsCoroutine.JobHandle.cancel w j) j
        = RsCoroutine.JobHandle.cancel w j := by
  refine ⟨?_, ?_, ?_⟩
  · exact RsCoroutine.World.setTrue_setTrue w t.cell
  · exact RsCoroutine.World.get_setTrue_self w t.cell h
  · exact RsCoroutine.World.setTrue_setTrue w j.cancel_token.cell

/-- Witness for C8 at a concrete input: a world holding one allocated
token cell. -/
theorem cancel_twice_idempotent_witness :
    ((RsCoroutine.CancelToken.mk 0).cell < (RsCoroutine.World.mk [false]).cells.length)
    ∧ (RsCoroutine.CancelToken.cancel
        (RsCoroutine.CancelToken.cancel ⟨[false]⟩ ⟨0⟩) ⟨0⟩
          = RsCoroutine.CancelToken.cancel ⟨[false]⟩ ⟨0⟩
      ∧ RsCoroutine.CancelToken.is_cancelled
          (RsCoroutine.CancelToken.cancel ⟨[false]⟩ ⟨0⟩) ⟨0⟩ = true
      ∧ RsCoroutine.JobHandle.cancel
          (RsCoroutine.JobHandle.cancel ⟨[false]⟩ ⟨⟨0⟩⟩) ⟨⟨0⟩⟩
            = RsCoroutine.JobHandle.cancel ⟨[false]⟩ ⟨⟨0⟩⟩) :=
  ⟨by decide, cancel_twice_idempotent ⟨[false]⟩ ⟨0⟩ ⟨⟨0⟩⟩ (by decide)⟩

/-- Claim C10: `JobHandle` completion is not latched.  Processing
`complete()` before a task starts awaiting `join()` leaves that task
registered but never woken (and no later event exists to wake it), while
the reverse order wakes it — `notify_waiters` only wakes tasks already
suspended at that instant. -/
theorem join_after_complete_never_wakes :
    (∀ tid : Nat,
        RsCoroutine.jobRun [.complete, .joinStart tid]
          = { waiting := [tid], woken := [] })
    ∧ (∀ tid : Nat,
        RsCoroutine.jobRun [.joinStart tid, .complete]
          = { waiting := [], woken := [tid] }) := by
  constructor
  · intro tid
    simp [RsCoroutine.jobRun, RsCoroutine.jobStep, RsCoroutine.NotifyState.empty,
      RsCoroutine.NotifyState.register, RsCoroutine.NotifyState.notifyAll]
  · intro tid
    simp [RsCoroutine.jobRun, RsCoroutine.jobStep, RsCoroutine.NotifyState.empty,
      RsCoroutine.NotifyState.register, RsCoroutine.NotifyState.notifyAll]

/-- Claim C6: awaiting a `Deferred` whose one-shot sender was dropped
yields the dedicated outcome `.panic "task dropped"`, which differs from
the outcome of every task that did return a value — including a task
that returned the Rust value `None` (`.value none` here), so the dropped
channel cannot be confused with "task returned no value". -/
theorem await_dropped_channel_distinct :
    RsCoroutine.awaitResult (none : Option (Option Nat))
        = .panic "task dropped"
    ∧ (∀ (T : Type) (v : T),
        RsCoroutine.awaitResult (some v) ≠ RsCoroutine.awaitResult (none : Option T))
    ∧ RsCoroutine.awaitResult (some (none : Option Nat))
        ≠ RsCoroutine.awaitResult (none : Option (Option Nat)) := by
  refine ⟨rfl, ?_, by decide⟩
  intro T v
  simp [RsCoroutine.awaitResult]

theorem RsFlow.runCollect_takeStep (count : Nat) (xs : List Nat) (e : Nat) :
    RsFlow.runCollect (RsFlow.takeStep count) e xs
      = (e + xs.length, xs.take (count - e), xs.length) := by
  induction xs generalizing e with
  | nil => simp [RsFlow.runCollect]
  | cons x xs ih =>
      by_cases h : e < count
      · have h1 : count - e = (count - (e + 1)) + 1 := by omega
        simp [RsFlow.runCollect, RsFlow.takeStep, h, ih, h1]
        omega
      · have h1 : count - e = 0 := by omega
        have h2 : count - (e + 1) = 0 := by omega
        simp [RsFlow.runCollect, RsFlow.takeStep, h, ih, h1, h2]
        omega

theorem RsFlow.runCollect_emit_all {T : Type} (xs : List T) :
    RsFlow.runCollect (fun (_ : Unit) v => ((), [v], false)) () xs
      = ((), xs, xs.length) := by
  induction xs with
  | nil => simp [RsFlow.runCollect]
  | cons x xs ih => simp [RsFlow.runCollect, ih]

/-- Claim C2 (amended): `FlowExt::take count` (operators.rs) pushes
exactly the first `min count (length upstream)` values downstream — the
emitted list is the `take count` prefix — but the upstream producer is
run to completion: every upstream value is consumed, whatever `count`
is.  The lib.rs `Flow::take` skips the upstream entirely for limit 0,
while for any positive limit its per-invocation copy of `remaining`
makes it deliver every upstream value. -/
theorem take_emits_min_but_drains_upstream :
    (∀ (count : Nat) (xs : List Nat),
        (RsFlow.takeRun count xs).2.1 = xs.take count
      ∧ (RsFlow.takeRun count xs).2.1.length = min count xs.length
      ∧ (RsFlow.takeRun count xs).2.2 = xs.length)
    ∧ (∀ xs : List Nat, RsFlow.libTakeRun 0 xs = ([], 0))
    ∧ (∀ (limit : Nat) (xs : List Nat),
        RsFlow.libTakeRun (limit + 1) xs = (xs, xs.length)) := by
  refine ⟨?_, ?_, ?_⟩
  · intro count xs
    refine ⟨?_, ?_, ?_⟩
    · simp [RsFlow.takeRun, RsFlow.runCollect_takeStep]
    · simp [RsFlow.takeRun, RsFlow.runCollect_takeStep]
    · simp [RsFlow.takeRun, RsFlow.runCollect_takeStep]
  · intro xs
    simp [RsFlow.libTakeRun]
  · intro limit xs
    simp [RsFlow.libTakeRun, RsFlow.runCollect_emit_all]

/-- Claim C2 counterexample: `take(0)` built by `FlowExt::take` over the
upstream `[1, 2, 3]` emits nothing but consumes all 3 upstream values —
the upstream producer is not terminated eagerly (the claim requires 0
upstream values to be produced). -/
theorem take_zero_runs_full_upstream :
    (RsFlow.takeRun 0 [1, 2, 3]).2.1 = []
    ∧ (RsFlow.takeRun 0 [1, 2, 3]).2.2 = 3
    ∧ (RsFlow.takeRun 0 [1, 2, 3]).2.2 ≠ 0 := by
  decide

/-- Claim C3: evaluation of `FlowExt::flat_map_latest` at the failing
input.  Upstream emits `a = 0` then `b = 1`, each mapped to an inner
stream of two values; the operator collects every inner stream to
completion in order — it holds no task handle and aborts nothing — so
the superseded inner stream's values `1` and `2` still reach the
downstream collector. -/
theorem flat_map_latest_collects_superseded_inner :
    RsFlow.flatMapLatestRun (fun v => [10 * v + 1, 10 * v + 2]) [0, 1]
        = [1, 2, 11, 12]
    ∧ (1 : Nat) ∈ RsFlow.flatMapLatestRun (fun v => [10 * v + 1, 10 * v + 2]) [0, 1]
    ∧ RsFlow.flatMapLatestRun (fun v => [10 * v + 1, 10 * v + 2]) [0, 1]
        ≠ [11, 12] := by
  decide

theorem RsFlow.runCollect_distinctStep {T : Type} [DecidableEq T] (p : T)
    (xs : List T) :
    (RsFlow.runCollect RsFlow.distinctStep (some p) xs).2.1
      = RsFlow.distinctSpecGo p xs := by
  induction xs generalizing p with
  | nil => simp [RsFlow.runCollect, RsFlow.distinctSpecGo]
  | cons y ys ih =>
      by_cases h : y = p
      · subst h
        simp [RsFlow.runCollect, RsFlow.distinctStep, RsFlow.distinctSpecGo, ih]
      · simp [RsFlow.runCollect, RsFlow.distinctStep, RsFlow.distinctSpecGo,
          h, Ne.symm h, ih]

/-- Claim C7: `distinct_until_changed` on `[1,1,2,2,3,1,1]` yields
exactly `[1,2,3,1]`, and in general a collect run agrees with the
one-previous-value specification: the first value is always emitted and
each later value is emitted iff it differs from the immediately
preceding accepted value — the operator state is that single `Option`
slot, never the full history. -/
theorem distinct_until_changed_contract :
    RsFlow.distinctRun [1, 1, 2, 2, 3, 1, 1] = [1, 2, 3, 1]
    ∧ (∀ (T : Type) (inst : DecidableEq T) (xs : List T),
        RsFlow.distinctRun xs = RsFlow.distinctSpec xs) := by
  constructor
  · decide
  · intro T inst xs
    cases xs with
    | nil => simp [RsFlow.distinctRun, RsFlow.runCollect, RsFlow.distinctSpec]
    | cons x rest =>
        simp [RsFlow.distinctRun, RsFlow.runCollect, RsFlow.distinctStep,
          RsFlow.distinctSpec, RsFlow.runCollect_distinctStep]

theorem RsFlow.runCollect_singleFold {T : Type} (xs : List T) (n : Nat)
    (r : Option T) :
    (RsFlow.runCollect
        (fun (acc : Nat × Option T) v =>
          ((acc.1 + 1, if acc.1 = 0 then some v else acc.2), ([] : List Unit), false))
        (n, r) xs).1
      = (n + xs.length, if n = 0 then xs.head?.or r else r) := by
  induction xs generalizing n r with
  | nil => simp [RsFlow.runCollect]
  | cons x xs ih =>
      by_cases h : n = 0
      · subst h
        simp [RsFlow.runCollect, ih]
        omega
      · simp [RsFlow.runCollect, ih, h]
        omega

/-- Claim C5: `FlowTerminal::single` returns `Ok` with the value on a
one-element stream, `Err(FlowError::Empty)` on an empty stream, and
`Err(FlowError::MoreThanOneElement)` on two or more emissions; it is a
total function into ordinary `Result` values, so the element count never
makes it panic. -/
theorem single_element_count_contract :
    RsFlow.singleRun ([] : List Nat) = .error .Empty
    ∧ (∀ (T : Type) (a : T), RsFlow.singleRun [a] = .ok a)
    ∧ (∀ (T : Type) (xs : List T), 2 ≤ xs.length →
        RsFlow.singleRun xs = .error .MoreThanOneElement) := by
  refine ⟨rfl, ?_, ?_⟩
  · intro T a
    simp [RsFlow.singleRun, RsFlow.runCollect]
  · intro T xs h
    obtain ⟨x, y, rest, rfl⟩ : ∃ x y rest, xs = x :: y :: rest := by
      match xs, h with
      | x :: y :: rest, _ => exact ⟨x, y, rest, rfl⟩
    have hfold := RsFlow.runCollect_singleFold (T := T) rest 2 (some x)
    simp [RsFlow.singleRun, RsFlow.runCollect, hfold]
    omega

/-- Witness for C5 at a concrete input: the two-element stream `[5, 6]`. -/
theorem single_element_count_contract_witness :
    2 ≤ ([5, 6] : List Nat).length
    ∧ RsFlow.singleRun ([5, 6] : List Nat) = .error .MoreThanOneElement :=
  ⟨by decide, single_element_count_contract.2.2 Nat [5, 6] (by decide)⟩

/-- Claim C9: one collect run of `StateFlow::as_flow` first emits the
value current in the watch channel at subscription time — before any
update is delivered — and when no value is ever written afterwards the
run still delivers exactly that current value. -/
theorem state_flow_first_emission_current :
    (∀ (T : Type) (v : T) (groups : List (List T)),
        RsFlow.stateFlowRun v groups = v :: RsFlow.observedUpdates groups
      ∧ (RsFlow.stateFlowRun v groups).head? = some v)
    ∧ RsFlow.stateFlowRun (7 : Nat) [] = [7] := by
  refine ⟨?_, by decide⟩
  intro T v groups
  exact ⟨rfl, rfl⟩
